import Mathlib

/-!
Shallow embedding of the SAP date-update robot (src/Sap.py) and proofs of the
spec claims.  Pure helpers of the Python module become Lean functions; the
interaction with the remote SAP GUI session is captured by explicit
environment records describing what the remote side answers at each fallible
point, so that every function of the module becomes a total, executable Lean
function of its inputs and of that environment.
-/

namespace Sap

/-! ### Python string primitives used by the module -/

/-- Model of Python `str.lower` restricted to the ASCII and Latin-1 letters
(the only characters the module's fixed phrases use): uppercase `A`-`Z` and
`À`-`Þ` (except `×`) map to their lowercase forms 32 code points higher. -/
def lowerChar (c : Char) : Char :=
  if 'A' ≤ c ∧ c ≤ 'Z' then Char.ofNat (c.toNat + 32)
  else if 0xC0 ≤ c.toNat ∧ c.toNat ≤ 0xDE ∧ c.toNat ≠ 0xD7 then Char.ofNat (c.toNat + 32)
  else c

/-- Python `str.lower`, character by character. -/
def pyLower (s : String) : String := String.mk (s.toList.map lowerChar)

/-- `listPrefixOf needle hay` : `needle` is an initial segment of `hay`. -/
def listPrefixOf : List Char → List Char → Bool
  | [], _ => true
  | _ :: _, [] => false
  | a :: xs, b :: ys => a = b && listPrefixOf xs ys

/-- `listHasSub needle hay` : `needle` occurs contiguously inside `hay`. -/
def listHasSub (needle : List Char) : List Char → Bool
  | [] => listPrefixOf needle []
  | c :: t => listPrefixOf needle (c :: t) || listHasSub needle t

/-- Python `needle in hay` for strings: substring containment. -/
def strContains (hay needle : String) : Bool := listHasSub needle.toList hay.toList

/-- Python `str.strip()`: drop whitespace from both ends. -/
def pyStrip (s : String) : String :=
  String.mk (((s.toList.dropWhile Char.isWhitespace).reverse.dropWhile
    Char.isWhitespace).reverse)

/-- Python `c in s` for a single character. -/
def strHasChar (s : String) (c : Char) : Bool := s.toList.contains c

/-! ### Status bar reading (`verificar_erro_sap`) -/

/-- What `session.findById("wnd[0]/sbar")` yields: the lookup (or any read on
the result) may raise, the object may be falsy, or it carries a message type
and a message text. -/
inductive StatusBar
  | unavailable
  | nullBar
  | avail (mtype : String) (text : String)

/-- The fixed "no change made" phrase test of `verificar_erro_sap`:
case-insensitive substring match of either Portuguese phrase. -/
def noChangePhrase (t : String) : Bool :=
  strContains (pyLower t) "sem alteração" || strContains (pyLower t) "não foi feita"

/-- `verificar_erro_sap` (src/Sap.py, lines 153-174): classify the status bar.
Types `E`/`A` are blocking errors, `W` is log-only, `I` blocks only when the
trimmed text matches a no-change phrase; any read failure yields `None`. -/
def verificar_erro_sap : StatusBar → Option String
  | .unavailable => none
  | .nullBar => none
  | .avail mtype text =>
    let t := pyStrip text
    if mtype = "E" || mtype = "A" then some ("Erro SAP: " ++ t)
    else if mtype = "W" then none
    else if mtype = "I" then
      if noChangePhrase t then some ("Informação SAP: " ++ t) else none
    else none

/-! ### Date formatting (`formatar_data`) -/

/-- The raw cell values `formatar_data` distinguishes: a missing value
(`pd.isna`), a native `pd.Timestamp`, or anything else taken via `str(...)`. -/
inductive PdValue
  | na
  | timestamp (d m y : Nat)
  | str (s : String)

/-- Two-digit zero pad, as `strftime` produces for `%d` and `%m`. -/
def pad2 (n : Nat) : String := if n < 10 then "0" ++ toString n else toString n

/-- Four-digit zero pad, as `strftime` produces for `%Y`. -/
def pad4 (n : Nat) : String :=
  if n < 10 then "000" ++ toString n
  else if n < 100 then "00" ++ toString n
  else if n < 1000 then "0" ++ toString n
  else toString n

/-- `strftime("%d.%m.%Y")` on a date. -/
def strftimeDMY (d m y : Nat) : String := pad2 d ++ "." ++ pad2 m ++ "." ++ pad4 y

/-- Split a character list on `/`. -/
def splitSlashAux : List Char → List Char → List (List Char)
  | cur, [] => [cur.reverse]
  | cur, c :: t =>
    if c = '/' then cur.reverse :: splitSlashAux [] t else splitSlashAux (c :: cur) t

/-- Read a nonempty all-digit character list as a number. -/
def digitsToNat? (l : List Char) : Option Nat :=
  if l ≠ [] ∧ l.all Char.isDigit then
    some (l.foldl (fun a c => a * 10 + (c.toNat - 48)) 0)
  else none

/-- Model of the library call `pd.to_datetime(s, dayfirst=True, errors="coerce")`
for the inputs the module feeds it (slash-separated day-first dates): three
numeric components split on `/`, read as day, month, year; anything else is
`NaT` (`none`). -/
def pd_to_datetime_dayfirst (s : String) : Option (Nat × Nat × Nat) :=
  match splitSlashAux [] s.toList with
  | [ds, ms, ys] =>
    match digitsToNat? ds, digitsToNat? ms, digitsToNat? ys with
    | some d, some m, some y =>
      if 1 ≤ d ∧ d ≤ 31 ∧ 1 ≤ m ∧ m ≤ 12 ∧ 1000 ≤ y ∧ y ≤ 9999 then some (d, m, y)
      else none
    | _, _, _ => none
  | _ => none

/-- `formatar_data` (src/Sap.py, lines 176-192): missing values become `""`,
timestamps are rendered `dd.mm.yyyy`, strings containing a dot are returned
trimmed and otherwise unchanged, and remaining strings are parsed day-first,
falling back to the trimmed string itself when parsing fails. -/
def formatar_data (valor : PdValue) : String :=
  match valor with
  | .na => ""
  | .timestamp d m y => strftimeDMY d m y
  | .str s =>
    let valor_str := pyStrip s
    if strHasChar valor_str '.' then valor_str
    else
      match pd_to_datetime_dayfirst valor_str with
      | some (d, m, y) => strftimeDMY d m y
      | none => valor_str

/-! ### Line-selector key (`alterar_data`, lines 236-244) -/

/-- Right-align `s` in a field of width `w`, padding with spaces on the left. -/
def padLeftSpaces (w : Nat) (s : String) : String :=
  if s.length < w then String.mk (List.replicate (w - s.length) ' ') ++ s else s

/-- The Python format expression `f"{n:4d}"`: minimum width 4, right-aligned,
space-padded. -/
def formatD4 (n : Nat) : String := padLeftSpaces 4 (toString n)

/-- `key_str = f"{linha_int // 10:4d}"` : the key written to the remote
line-selector combo box. -/
def lineKey (linha : Nat) : String := formatD4 (linha / 10)

/-! ### The per-record transaction (`alterar_data`) -/

/-- The combo-box id of the line selector (src/Sap.py, lines 236-238). -/
def comboId : String :=
  "wnd[0]/usr/subSUB0:SAPLMEGUI:0015/subSUB3:SAPLMEVIEWS:1100/subSUB2:SAPLMEVIEWS:1200/subSUB1:SAPLMEGUI:1301/subSUB1:SAPLMEGUI:6000/cmbDYN_6000-LIST"

/-- The id of the delivery-date cell (src/Sap.py, lines 249-255). -/
def campoDataId : String :=
  "wnd[0]/usr/subSUB0:SAPLMEGUI:0015/subSUB3:SAPLMEVIEWS:1100/subSUB2:SAPLMEVIEWS:1200/subSUB1:SAPLMEGUI:1301/subSUB2:SAPLMEGUI:1303/tabsITEM_DETAIL/tabpTABIDT5/ssubTABSTRIPCONTROL1SUB:SAPLMEGUI:1320/tblSAPLMEGUITC_1320/ctxtMEPO1320-EEIND[2,0]"

/-- The message of the exception `esperar_objeto` raises after exhausting its
attempts; both call sites in `alterar_data` use `tentativas=5` with the
default `intervalo=0.5`, so the elapsed time prints as `2.5`. -/
def esperarObjetoMsg (objId : String) : String :=
  "Objeto " ++ objId ++ " não encontrado após 2.5s."

/-- What the remote session answers at each fallible point of one attempt of
`alterar_data`: the status bar after opening ME22N, the status bar after
entering the order number, whether `esperar_objeto` finds the combo box and
the date cell, the text read from the date cell, the text re-read from it
after writing, and the status bar after saving. -/
structure AttemptEnv where
  afterOpen : StatusBar
  afterPedido : StatusBar
  comboFound : Bool
  cellFound : Bool
  cellText : String
  textAfterWrite : String
  afterSave : StatusBar

/-- Outcome of one attempt body: a `return` of the Python function, or an
exception caught by the attempt's `except` clause. -/
inductive AttemptResult
  | done (status msg : String)
  | failed (err : String)
deriving DecidableEq, Repr

/-- One attempt together with its observable effects on the remote state:
which combo key was set (if the SELECT_LINE step was reached), whether the
date cell was written, and whether the save button was pressed. -/
structure AttemptOut where
  result : AttemptResult
  keyUsed : Option String
  wrote : Bool
  savePressed : Bool
deriving DecidableEq, Repr

/-- The body of one attempt of `alterar_data` (src/Sap.py, lines 208-294),
in source order: check the status bar after opening ME22N and after entering
the order, locate the combo box, set its key, locate the date cell, read and
trim it, short-circuit with `PULADO` when it already holds `novaData`,
otherwise write, verify the write, save, dismiss dialogs (best-effort,
no observable result), and check the status bar once more. -/
def runAttempt (env : AttemptEnv) (pedido : String) (linha : Nat) (novaData : String) :
    AttemptOut :=
  match verificar_erro_sap env.afterOpen with
  | some e => ⟨.failed ("Erro ao abrir ME22N: " ++ e), none, false, false⟩
  | none =>
  match verificar_erro_sap env.afterPedido with
  | some e => ⟨.failed ("Pedido não encontrado: " ++ e), none, false, false⟩
  | none =>
  if env.comboFound = false then
    ⟨.failed (esperarObjetoMsg comboId), none, false, false⟩
  else
    let key := lineKey linha
    if env.cellFound = false then
      ⟨.failed (esperarObjetoMsg campoDataId), some key, false, false⟩
    else
      let valorAtual := pyStrip env.cellText
      if valorAtual = novaData then
        ⟨.done "PULADO"
          ("⚠️ Pedido " ++ pedido ++ ", linha " ++ toString linha ++
            " já estava com a data " ++ novaData), some key, false, false⟩
      else if pyStrip env.textAfterWrite ≠ novaData then
        ⟨.failed ("O campo de data não foi atualizado. Esperado: " ++ novaData ++
          ", Atual: " ++ pyStrip env.textAfterWrite), some key, true, false⟩
      else
        match verificar_erro_sap env.afterSave with
        | some e => ⟨.failed ("Erro após salvar: " ++ e), some key, true, true⟩
        | none =>
          ⟨.done "SUCESSO"
            ("✅ Pedido " ++ pedido ++ ", linha " ++ toString linha ++
              " atualizado para " ++ novaData), some key, true, true⟩

/-- The terminal failure message of `alterar_data` (src/Sap.py, line 306). -/
def falhaFinalMsg (pedido : String) (linha : Nat) (maxT : Nat) (e : String) : String :=
  "❌ Pedido " ++ pedido ++ ", linha " ++ toString linha ++ " falhou após " ++
    toString maxT ++ " tentativas: " ++ e

/-- The retry loop of `alterar_data` (src/Sap.py, lines 207-310), recursing on
the number of remaining attempts; `t` is the 1-based number of the current
attempt and `envs t` the remote behaviour it meets.  Returns the `(status,
mensagem)` pair of the Python function together with the number of attempts
actually performed.  `rem = 0` is the fall-through after the `for` loop
(reached directly when `max_tentativas = 0`). -/
def alterarLoop (envs : Nat → AttemptEnv) (pedido : String) (linha : Nat)
    (novaData : String) (maxT : Nat) : Nat → Nat → (String × String) × Nat
  | 0, _t =>
    (("ERRO", "❌ Falha desconhecida no pedido " ++ pedido ++ ", linha " ++ toString linha), 0)
  | rem + 1, t =>
    match (runAttempt (envs t) pedido linha novaData).result with
    | .done st msg => ((st, msg), 1)
    | .failed e =>
      if rem = 0 then
        (("ERRO", falhaFinalMsg pedido linha maxT e), 1)
      else
        let r := alterarLoop envs pedido linha novaData maxT rem (t + 1)
        (r.1, r.2 + 1)

/-- `alterar_data` (src/Sap.py, lines 194-310): the `(status, mensagem)` pair. -/
def alterar_data (envs : Nat → AttemptEnv) (pedido : String) (linha : Nat)
    (novaData : String) (maxT : Nat) : String × String :=
  (alterarLoop envs pedido linha novaData maxT maxT 1).1

/-- The number of attempts `alterar_data` performs. -/
def alterarTentativas (envs : Nat → AttemptEnv) (pedido : String) (linha : Nat)
    (novaData : String) (maxT : Nat) : Nat :=
  (alterarLoop envs pedido linha novaData maxT maxT 1).2

/-! ### Batch orchestration (`main`) and result persistence -/

/-- One row of the input spreadsheet, after `main`'s per-row extraction:
`pedido = row["Pedido"]` (kept as text), `linha = int(row["Linha"])`,
and the raw `NovaData` cell value. -/
structure RecordInput where
  pedido : String
  linha : Nat
  novaDataRaw : PdValue

/-- One element of `resultados` (src/Sap.py, lines 391-398). -/
structure Resultado where
  pedido : String
  linha : Nat
  novaData : String
  status : String
  mensagem : String
  dataExecucao : String
deriving DecidableEq, Repr

/-- The CSV header row produced by `pd.DataFrame(resultados).to_csv`: the dict
keys of the result rows, in insertion order. -/
def csvHeader : List String :=
  ["Pedido", "Linha", "Nova Data", "Status", "Mensagem", "Data Execução"]

/-- One CSV data row of the result file, fields in column order. -/
def csvLine (r : Resultado) : List String :=
  [r.pedido, toString r.linha, r.novaData, r.status, r.mensagem, r.dataExecucao]

/-- `salvar_logs_csv` (src/Sap.py, lines 312-330): the rows of the produced
file, header first, then the results in list order. -/
def salvar_logs_csv (resultados : List Resultado) : List (List String) :=
  csvHeader :: resultados.map csvLine

/-- The outcome of processing one input row at position `idx` of the loop in
`main` (src/Sap.py, lines 380-398): normalize the date, run `alterar_data`
with the default `max_tentativas = 2`, and build the result dict. -/
def recordOutcome (envsFor : Nat → Nat → AttemptEnv) (now : String) (idx : Nat)
    (row : RecordInput) : Resultado :=
  let novaData := formatar_data row.novaDataRaw
  let sm := alterar_data (envsFor idx) row.pedido row.linha novaData 2
  ⟨row.pedido, row.linha, novaData, sm.1, sm.2, now⟩

/-- The per-record loop of `main` (src/Sap.py, lines 375-398): for each row it
first emits the progress value `25 + int(idx / total * 65)` (embedded with
exact integer arithmetic as `25 + idx * 65 / total`), then appends the row's
outcome.  Returns the accumulated results and the emitted progress values,
both in loop order. -/
def processRecords (envsFor : Nat → Nat → AttemptEnv) (now : String) (total : Nat) :
    Nat → List RecordInput → List Resultado × List Nat
  | _idx, [] => ([], [])
  | idx, row :: rest =>
    let out := processRecords envsFor now total (idx + 1) rest
    (recordOutcome envsFor now idx row :: out.1, (25 + idx * 65 / total) :: out.2)

/-- The environment one run of `main` executes against: whether the input file
exists, the parsed spreadsheet rows (`none` models `pd.read_excel` raising),
whether `conectar_sap` obtains a session, the remote behaviour per record and
attempt, the module-level flag `_cancelamento_solicitado`, and the wall-clock
string stamped into the result rows. -/
structure MainEnv where
  fileExists : Bool
  excelRows : Option (List RecordInput)
  connected : Bool
  attemptEnvs : Nat → Nat → AttemptEnv
  cancelSolicitado : Bool
  now : String

/-- Observable output of one run of `main`: the in-memory result list, every
progress value emitted in order, the rows of the result file (`none` when the
run aborts before `salvar_logs_csv`), and the final status emission. -/
structure MainOut where
  resultados : List Resultado
  progress : List Nat
  csv : Option (List (List String))
  finalStatus : String × String

/-- `main` (src/Sap.py, lines 332-427).  Progress 5 is emitted before the file
check, 10 after loading the spreadsheet, 15 before connecting, 25 after
connecting; a missing file, a spreadsheet error or a failed connection aborts
with an error status, no results and no file; otherwise every row is
processed in order, progress 95 and 100 are emitted, the CSV is written and
the final status is derived from the error/success counts.  Note the flag
`_cancelamento_solicitado` is never consulted. -/
def mainRun (env : MainEnv) : MainOut :=
  if env.fileExists = false then
    ⟨[], [5], none, ("Arquivo não encontrado", "error")⟩
  else
    match env.excelRows with
    | none => ⟨[], [5], none, ("Erro no Excel", "error")⟩
    | some rows =>
      if env.connected = false then
        ⟨[], [5, 10, 15], none, ("Falha na conexão", "error")⟩
      else
        let total := rows.length
        let out := processRecords env.attemptEnvs env.now total 0 rows
        let resultados := out.1
        let sucessos := resultados.countP (fun r => r.status = "SUCESSO")
        let erros := resultados.countP (fun r => r.status = "ERRO")
        let finalStatus :=
          if erros = 0 then ("Concluído com sucesso", "success")
          else if sucessos > 0 then
            ("Concluído com " ++ toString erros ++ " erros", "warning")
          else ("Concluído com erros", "error")
        ⟨resultados, [5, 10, 15, 25] ++ out.2 ++ [95, 100],
          some (salvar_logs_csv resultados), finalStatus⟩

/-! ### Claim C5 — status classification -/

/-- Claim C5: the classifier returns a blocking `"Erro SAP: "` result exactly
for message types `E` and `A`, returns `none` for `W`, returns a blocking
`"Informação SAP: "` result for `I` exactly when the trimmed text
case-insensitively contains one of the fixed no-change phrases, returns
`none` for every other type, and returns `none` whenever the status slot
cannot be read. -/
theorem c5_status_classification :
    (∀ m t, m = "E" ∨ m = "A" →
      verificar_erro_sap (.avail m t) = some ("Erro SAP: " ++ pyStrip t)) ∧
    (∀ t, verificar_erro_sap (.avail "W" t) = none) ∧
    (∀ t, noChangePhrase (pyStrip t) = true →
      verificar_erro_sap (.avail "I" t) = some ("Informação SAP: " ++ pyStrip t)) ∧
    (∀ t, noChangePhrase (pyStrip t) = false →
      verificar_erro_sap (.avail "I" t) = none) ∧
    (∀ m t, m ≠ "E" → m ≠ "A" → m ≠ "W" → m ≠ "I" →
      verificar_erro_sap (.avail m t) = none) ∧
    verificar_erro_sap .unavailable = none ∧
    verificar_erro_sap .nullBar = none := by
  refine ⟨?_, ?_, ?_, ?_, ?_, rfl, rfl⟩
  · rintro m t (rfl | rfl) <;> simp [verificar_erro_sap]
  · intro t; simp [verificar_erro_sap]
  · intro t h; simp [verificar_erro_sap, h]
  · intro t h; simp [verificar_erro_sap, h]
  · intro m t h1 h2 h3 h4; simp [verificar_erro_sap, h1, h2, h3, h4]

/-- Witness for C5 at concrete inputs: an `E` message blocks with its trimmed
text, and an informational no-change message blocks with the info prefix. -/
theorem c5_status_classification_w :
    verificar_erro_sap (.avail "E" " boom ") = some ("Erro SAP: " ++ pyStrip " boom ") ∧
    verificar_erro_sap (.avail "I" "Documento SEM ALTERAÇÃO") =
      some ("Informação SAP: " ++ pyStrip "Documento SEM ALTERAÇÃO") :=
  ⟨c5_status_classification.1 "E" " boom " (Or.inl rfl),
   c5_status_classification.2.2.1 "Documento SEM ALTERAÇÃO" (by decide)⟩

/-! ### Claim C6 — date normalization round trip -/

/-- Claim C6: `formatar_data` maps `"15/03/2024"` and `"15.03.2024"` both to
`"15.03.2024"`, and is the identity on any already-trimmed string containing
a dot (hence idempotent on normalized `dd.mm.yyyy` strings). -/
theorem c6_date_round_trip :
    formatar_data (.str "15/03/2024") = "15.03.2024" ∧
    formatar_data (.str "15.03.2024") = "15.03.2024" ∧
    ∀ s : String, pyStrip s = s → strHasChar s '.' = true →
      formatar_data (.str s) = s := by
  refine ⟨by decide, by decide, ?_⟩
  intro s h1 h2
  simp [formatar_data, h1, h2]

/-- Witness for C6: the identity-on-dotted-strings part applied to the
normalized date itself. -/
theorem c6_date_round_trip_w :
    formatar_data (.str "15.03.2024") = "15.03.2024" :=
  c6_date_round_trip.2.2 "15.03.2024" (by decide) (by decide)

/-! ### Claim C10 — `formatar_data` is total and non-rejecting -/

/-- Claim C10: a missing value normalizes to `""`; any string whose trimmed
form contains a dot is returned trimmed, without validation; and a dot-free
string that fails day-first parsing is returned trimmed and unchanged. -/
theorem c10_formatar_total :
    formatar_data .na = "" ∧
    (∀ s, strHasChar (pyStrip s) '.' = true → formatar_data (.str s) = pyStrip s) ∧
    (∀ s, strHasChar (pyStrip s) '.' = false →
      pd_to_datetime_dayfirst (pyStrip s) = none → formatar_data (.str s) = pyStrip s) := by
  refine ⟨rfl, ?_, ?_⟩
  · intro s h; simp [formatar_data, h]
  · intro s h1 h2; simp [formatar_data, h1, h2]

/-- Witness for C10: a dotted non-date passes through, and an unparseable
plain string passes through trimmed. -/
theorem c10_formatar_total_w :
    formatar_data (.str " 1.2.x ") = pyStrip " 1.2.x " ∧
    formatar_data (.str " abc ") = pyStrip " abc " :=
  ⟨c10_formatar_total.2.1 " 1.2.x " (by decide),
   c10_formatar_total.2.2 " abc " (by decide) (by decide)⟩

/-! ### Claim C2 — the line-selector key -/

/-- Counterexample to claim C2: the key for line 10 is the space-padded
`"   1"`, not the zero-padded `"0001"` the claim states. -/
theorem c2_key_not_zero_padded_cex :
    lineKey 10 = "   1" ∧ lineKey 10 ≠ "0001" := by decide

/-- Claim C2 as amended: the key written to the line selector is
`floor(linha / 10)` rendered right-aligned in a field of width 4 padded with
spaces (line 10 yields `"   1"`); whenever an attempt reaches the
line-selection step, exactly this key is used. -/
theorem c2_key_space_padded :
    (∀ linha : Nat,
      (lineKey linha).data =
        List.replicate (4 - (toString (linha / 10)).length) ' ' ++
          (toString (linha / 10)).data ∧
      4 ≤ (lineKey linha).length) ∧
    (∀ (env : AttemptEnv) (pedido novaData : String) (linha : Nat),
      verificar_erro_sap env.afterOpen = none →
      verificar_erro_sap env.afterPedido = none →
      env.comboFound = true →
      (runAttempt env pedido linha novaData).keyUsed = some (lineKey linha)) ∧
    lineKey 10 = "   1" := by
  refine ⟨?_, ?_, by decide⟩
  · intro linha
    unfold lineKey formatD4 padLeftSpaces
    by_cases h : (toString (linha / 10)).length < 4
    · rw [if_pos h]
      refine ⟨rfl, ?_⟩
      have hl : (String.mk (List.replicate (4 - (toString (linha / 10)).length) ' ') ++
          toString (linha / 10)).length =
          (4 - (toString (linha / 10)).length) + (toString (linha / 10)).length := by
        show (List.replicate (4 - (toString (linha / 10)).length) ' ' ++
          (toString (linha / 10)).data).length = _
        rw [List.length_append, List.length_replicate]
        rfl
      rw [hl]
      omega
    · rw [if_neg h]
      refine ⟨?_, by omega⟩
      have h0 : 4 - (toString (linha / 10)).length = 0 := by omega
      rw [h0]
      rfl
  · intro env pedido novaData linha h1 h2 h3
    unfold runAttempt
    rw [h1, h2, h3]
    simp only [Bool.true_eq_false, if_false]
    by_cases hc : env.cellFound = false
    · simp [hc]
    · simp only [hc, if_false]
      by_cases hv : pyStrip env.cellText = novaData
      · simp [hv]
      · simp only [hv, if_false]
        by_cases hw : pyStrip env.textAfterWrite ≠ novaData
        · simp [hw]
        · simp only [hw, if_false]
          cases verificar_erro_sap env.afterSave <;> rfl

/-- Witness for C2's amended key property: a successful attempt on line 10
sets the combo key `"   1"`. -/
theorem c2_key_space_padded_w :
    (runAttempt ⟨.nullBar, .nullBar, true, true, "10.03.2024", "15.03.2024", .nullBar⟩
      "4500012345" 10 "15.03.2024").keyUsed = some (lineKey 10) :=
  c2_key_space_padded.2.1
    ⟨.nullBar, .nullBar, true, true, "10.03.2024", "15.03.2024", .nullBar⟩
    "4500012345" "15.03.2024" 10 rfl rfl rfl

/-! ### Unfolding lemmas for the retry loop and the batch loop -/

/-- An attempt that returns terminates the loop with one attempt performed. -/
theorem alterarLoop_succ_done (envs : Nat → AttemptEnv) (pedido : String)
    (linha : Nat) (novaData : String) (maxT rem t : Nat) (st msg : String)
    (h : (runAttempt (envs t) pedido linha novaData).result = .done st msg) :
    alterarLoop envs pedido linha novaData maxT (rem + 1) t = ((st, msg), 1) := by
  unfold alterarLoop
  rw [h]

/-- A failing attempt with no attempt remaining yields the terminal error. -/
theorem alterarLoop_succ_failed_last (envs : Nat → AttemptEnv) (pedido : String)
    (linha : Nat) (novaData : String) (maxT t : Nat) (e : String)
    (h : (runAttempt (envs t) pedido linha novaData).result = .failed e) :
    alterarLoop envs pedido linha novaData maxT (0 + 1) t =
      (("ERRO", falhaFinalMsg pedido linha maxT e), 1) := by
  unfold alterarLoop
  rw [h]
  rfl

/-- A failing attempt with attempts remaining recurses on the next attempt and
adds one to the attempt count. -/
theorem alterarLoop_succ_failed_retry (envs : Nat → AttemptEnv) (pedido : String)
    (linha : Nat) (novaData : String) (maxT rem t : Nat) (e : String)
    (h : (runAttempt (envs t) pedido linha novaData).result = .failed e)
    (hrem : rem ≠ 0) :
    alterarLoop envs pedido linha novaData maxT (rem + 1) t =
      ((alterarLoop envs pedido linha novaData maxT rem (t + 1)).1,
        (alterarLoop envs pedido linha novaData maxT rem (t + 1)).2 + 1) := by
  conv_lhs => unfold alterarLoop
  rw [h]
  show (if rem = 0 then (("ERRO", falhaFinalMsg pedido linha maxT e), 1)
    else
      let r := alterarLoop envs pedido linha novaData maxT rem (t + 1)
      (r.1, r.2 + 1)) = _
  rw [if_neg hrem]

/-- The batch loop yields exactly one result per input row, whatever the
remote behaviour. -/
theorem processRecords_length (envsFor : Nat → Nat → AttemptEnv) (now : String)
    (total : Nat) : ∀ (k : Nat) (rows : List RecordInput),
    (processRecords envsFor now total k rows).1.length = rows.length := by
  intro k rows
  induction rows generalizing k with
  | nil => rfl
  | cons row rest ih => simp [processRecords, ih]

/-! ### Claim C3 — retry bound -/

/-- Claim C3: when every attempt of a record fails, `alterar_data` with
`max_tentativas = 2` performs exactly 2 attempts and returns a terminal
`ERRO` outcome whose message ends with the second failure's message; the
batch loop still yields one outcome per row, so the failure never aborts the
batch. -/
theorem c3_retry_bound (envs : Nat → AttemptEnv) (errs : Nat → String)
    (pedido : String) (linha : Nat) (novaData : String)
    (hfail : ∀ t, (runAttempt (envs t) pedido linha novaData).result = .failed (errs t)) :
    alterar_data envs pedido linha novaData 2 =
      ("ERRO", falhaFinalMsg pedido linha 2 (errs 2)) ∧
    alterarTentativas envs pedido linha novaData 2 = 2 ∧
    (∀ (envsFor : Nat → Nat → AttemptEnv) (now : String) (total k : Nat)
      (rows : List RecordInput),
      (processRecords envsFor now total k rows).1.length = rows.length) := by
  have hstep := alterarLoop_succ_failed_retry envs pedido linha novaData 2 1 1
    (errs 1) (hfail 1) (by omega)
  have hlast : alterarLoop envs pedido linha novaData 2 1 (1 + 1) =
      (("ERRO", falhaFinalMsg pedido linha 2 (errs 2)), 1) :=
    alterarLoop_succ_failed_last envs pedido linha novaData 2 2 (errs 2) (hfail 2)
  refine ⟨?_, ?_, fun f now total k rows => processRecords_length f now total k rows⟩
  · show (alterarLoop envs pedido linha novaData 2 (1 + 1) 1).1 = _
    rw [hstep, hlast]
  · show (alterarLoop envs pedido linha novaData 2 (1 + 1) 1).2 = 2
    rw [hstep, hlast]

/-- Witness for C3: against a status bar that reports an error right after
opening ME22N on every attempt, the transaction performs exactly two attempts
and ends in the terminal error. -/
theorem c3_retry_bound_w :
    alterar_data (fun _ => ⟨.avail "E" "boom", .nullBar, true, true, "", "", .nullBar⟩)
      "4500012345" 10 "15.03.2024" 2 =
      ("ERRO", falhaFinalMsg "4500012345" 10 2 "Erro ao abrir ME22N: Erro SAP: boom") ∧
    alterarTentativas (fun _ => ⟨.avail "E" "boom", .nullBar, true, true, "", "", .nullBar⟩)
      "4500012345" 10 "15.03.2024" 2 = 2 := by
  have h := c3_retry_bound
    (fun _ => ⟨.avail "E" "boom", .nullBar, true, true, "", "", .nullBar⟩)
    (fun _ => "Erro ao abrir ME22N: Erro SAP: boom")
    "4500012345" 10 "15.03.2024" (fun _t => rfl)
  exact ⟨h.1, h.2.1⟩

/-! ### Claim C4 — idempotence short-circuit -/

/-- Claim C4: when the trimmed date cell already equals the normalized date,
the attempt terminates with `PULADO`, no write and no save is performed, and
`alterar_data` returns after this single attempt — repeating the transaction
against the same state yields the same `PULADO` outcome. -/
theorem c4_skip_short_circuit (env : AttemptEnv) (pedido : String) (linha : Nat)
    (novaData : String)
    (h1 : verificar_erro_sap env.afterOpen = none)
    (h2 : verificar_erro_sap env.afterPedido = none)
    (h3 : env.comboFound = true) (h4 : env.cellFound = true)
    (h5 : pyStrip env.cellText = novaData) :
    (runAttempt env pedido linha novaData).result =
      .done "PULADO" ("⚠️ Pedido " ++ pedido ++ ", linha " ++ toString linha ++
        " já estava com a data " ++ novaData) ∧
    (runAttempt env pedido linha novaData).wrote = false ∧
    (runAttempt env pedido linha novaData).savePressed = false ∧
    (∀ envs : Nat → AttemptEnv, envs 1 = env →
      alterar_data envs pedido linha novaData 2 =
        ("PULADO", "⚠️ Pedido " ++ pedido ++ ", linha " ++ toString linha ++
          " já estava com a data " ++ novaData) ∧
      alterarTentativas envs pedido linha novaData 2 = 1) := by
  have hr : runAttempt env pedido linha novaData =
      ⟨.done "PULADO" ("⚠️ Pedido " ++ pedido ++ ", linha " ++ toString linha ++
        " já estava com a data " ++ novaData), some (lineKey linha), false, false⟩ := by
    unfold runAttempt
    rw [h1, h2, h3, h4]
    simp [h5]
  refine ⟨by rw [hr], by rw [hr], by rw [hr], ?_⟩
  intro envs henv
  have hdone : (runAttempt (envs 1) pedido linha novaData).result =
      .done "PULADO" ("⚠️ Pedido " ++ pedido ++ ", linha " ++ toString linha ++
        " já estava com a data " ++ novaData) := by
    rw [henv, hr]
  have h2n : (2 : Nat) = 1 + 1 := rfl
  have hstep := alterarLoop_succ_done envs pedido linha novaData 2 1 1 _ _ hdone
  constructor
  · show (alterarLoop envs pedido linha novaData 2 2 1).1 = _
    rw [h2n, hstep]
  · show (alterarLoop envs pedido linha novaData 2 2 1).2 = 1
    rw [h2n, hstep]

/-- Witness for C4: a cell already holding `15.03.2024` yields `PULADO` with
no write, no save, and a single attempt. -/
theorem c4_skip_short_circuit_w :
    (runAttempt ⟨.nullBar, .nullBar, true, true, " 15.03.2024 ", "", .nullBar⟩
      "4500012345" 10 "15.03.2024").wrote = false ∧
    alterarTentativas
      (fun _ => ⟨.nullBar, .nullBar, true, true, " 15.03.2024 ", "", .nullBar⟩)
      "4500012345" 10 "15.03.2024" 2 = 1 := by
  have h := c4_skip_short_circuit
    ⟨.nullBar, .nullBar, true, true, " 15.03.2024 ", "", .nullBar⟩
    "4500012345" 10 "15.03.2024" rfl rfl rfl rfl (by decide)
  exact ⟨h.2.1, (h.2.2.2 (fun _ => ⟨.nullBar, .nullBar, true, true, " 15.03.2024 ", "", .nullBar⟩) rfl).2⟩

/-! ### Claim C9 — connection failure aborts the run -/

/-- Claim C9: when no session is obtained, the run stops with the terminal
error status, produces no outcome, attempts no transaction and writes no
result file. -/
theorem c9_connect_abort (env : MainEnv) (rows : List RecordInput)
    (hf : env.fileExists = true) (he : env.excelRows = some rows)
    (hc : env.connected = false) :
    (mainRun env).resultados = [] ∧
    (mainRun env).csv = none ∧
    (mainRun env).finalStatus = ("Falha na conexão", "error") ∧
    (mainRun env).progress = [5, 10, 15] := by
  simp [mainRun, hf, he, hc]

/-- Witness for C9 at a concrete run whose connection step fails. -/
theorem c9_connect_abort_w :
    (mainRun ⟨true, some [⟨"4500012345", 10, .str "15/03/2024"⟩], false,
      fun _ _ => ⟨.nullBar, .nullBar, true, true, "", "", .nullBar⟩,
      false, "2024-03-15 08:00:00"⟩).resultados = [] ∧
    (mainRun ⟨true, some [⟨"4500012345", 10, .str "15/03/2024"⟩], false,
      fun _ _ => ⟨.nullBar, .nullBar, true, true, "", "", .nullBar⟩,
      false, "2024-03-15 08:00:00"⟩).csv = none := by
  have h := c9_connect_abort
    ⟨true, some [⟨"4500012345", 10, .str "15/03/2024"⟩], false,
      fun _ _ => ⟨.nullBar, .nullBar, true, true, "", "", .nullBar⟩,
      false, "2024-03-15 08:00:00"⟩
    [⟨"4500012345", 10, .str "15/03/2024"⟩] rfl rfl rfl
  exact ⟨h.1, h.2.1⟩

/-! ### Characterization of the batch loop and of a normal run -/

/-- Pointwise characterization of the batch results: the `i`-th outcome is the
outcome of the `i`-th input row, processed at loop index `k + i`. -/
theorem processRecords_getElem (envsFor : Nat → Nat → AttemptEnv) (now : String)
    (total : Nat) : ∀ (rows : List RecordInput) (k i : Nat),
    (processRecords envsFor now total k rows).1[i]? =
      rows[i]?.map (fun row => recordOutcome envsFor now (k + i) row) := by
  intro rows
  induction rows with
  | nil => intro k i; simp [processRecords]
  | cons row rest ih =>
    intro k i
    cases i with
    | zero => simp [processRecords]
    | succ j =>
      have harith : k + 1 + j = k + (j + 1) := by omega
      simp only [processRecords, List.getElem?_cons_succ, ih (k + 1) j, harith]

/-- The progress values emitted by the batch loop, in order: one value
`25 + (k + i) * 65 / total` per row index `i`. -/
theorem processRecords_progress (envsFor : Nat → Nat → AttemptEnv) (now : String)
    (total : Nat) : ∀ (rows : List RecordInput) (k : Nat),
    (processRecords envsFor now total k rows).2 =
      (List.range rows.length).map (fun i => 25 + (k + i) * 65 / total) := by
  intro rows
  induction rows with
  | nil => intro k; simp [processRecords]
  | cons row rest ih =>
    intro k
    simp only [processRecords, List.length_cons, List.range_succ_eq_map,
      List.map_cons, List.map_map, ih (k + 1)]
    refine congrArg₂ _ (by simp) (List.map_congr_left ?_)
    intro i _
    have harith : k + 1 + i = k + (i + 1) := by omega
    simp [Function.comp, harith, Nat.succ_eq_add_one]

/-- On a normal run (file present, spreadsheet loaded, session obtained),
`mainRun`'s fields are those of the processing loop. -/
theorem mainRun_success_fields (env : MainEnv) (rows : List RecordInput)
    (hf : env.fileExists = true) (he : env.excelRows = some rows)
    (hc : env.connected = true) :
    (mainRun env).resultados =
      (processRecords env.attemptEnvs env.now rows.length 0 rows).1 ∧
    (mainRun env).progress =
      [5, 10, 15, 25] ++
        (processRecords env.attemptEnvs env.now rows.length 0 rows).2 ++ [95, 100] ∧
    (mainRun env).csv = some (salvar_logs_csv (mainRun env).resultados) := by
  refine ⟨?_, ?_, ?_⟩ <;> simp [mainRun, hf, he, hc]

/-! ### Claim C7 — exactly one outcome per record, in input order -/

/-- Claim C7: absent cancellation and fatal aborts, the run yields exactly one
`Resultado` per input row, the `i`-th outcome comes from the `i`-th row, the
whole ordered list is handed to the CSV writer, and the `i`-th data row of
the CSV (after the header) serializes the `i`-th outcome. -/
theorem c7_batch_outcomes (env : MainEnv) (rows : List RecordInput)
    (hf : env.fileExists = true) (he : env.excelRows = some rows)
    (hc : env.connected = true) :
    (mainRun env).resultados.length = rows.length ∧
    (∀ i : Nat, (mainRun env).resultados[i]? =
      rows[i]?.map (fun row => recordOutcome env.attemptEnvs env.now i row)) ∧
    (mainRun env).csv = some (salvar_logs_csv (mainRun env).resultados) ∧
    (∀ i : Nat, (salvar_logs_csv (mainRun env).resultados)[i + 1]? =
      (mainRun env).resultados[i]?.map csvLine) := by
  obtain ⟨hres, _hprog, hcsv⟩ := mainRun_success_fields env rows hf he hc
  refine ⟨?_, ?_, hcsv, ?_⟩
  · rw [hres, processRecords_length]
  · intro i
    rw [hres, processRecords_getElem]
    simp
  · intro i
    simp [salvar_logs_csv]

/-- Witness for C7 on a concrete two-row run: two outcomes, in input order. -/
theorem c7_batch_outcomes_w :
    (mainRun ⟨true,
      some [⟨"4500012345", 10, .str "15/03/2024"⟩, ⟨"4500099999", 20, .str "01/04/2024"⟩],
      true,
      fun _ _ => ⟨.nullBar, .nullBar, true, true, "10.03.2024", "15.03.2024", .nullBar⟩,
      false, "2024-03-15 08:00:00"⟩).resultados.length = 2 :=
  (c7_batch_outcomes
    ⟨true,
      some [⟨"4500012345", 10, .str "15/03/2024"⟩, ⟨"4500099999", 20, .str "01/04/2024"⟩],
      true,
      fun _ _ => ⟨.nullBar, .nullBar, true, true, "10.03.2024", "15.03.2024", .nullBar⟩,
      false, "2024-03-15 08:00:00"⟩
    [⟨"4500012345", 10, .str "15/03/2024"⟩, ⟨"4500099999", 20, .str "01/04/2024"⟩]
    rfl rfl rfl).1

/-! ### Claim C8 — progress invariants -/

/-- Claim C8: on a run that completes normally the emitted progress sequence
is `[5, 10, 15, 25]`, then `25 + floor(i * 65 / total)` per record index `i`,
then `[95, 100]`; consecutive values are non-decreasing, every value is at
most 100, and the last emitted value is 100. -/
theorem c8_progress_invariants (env : MainEnv) (rows : List RecordInput)
    (hf : env.fileExists = true) (he : env.excelRows = some rows)
    (hc : env.connected = true) :
    (mainRun env).progress =
      [5, 10, 15, 25] ++
        (List.range rows.length).map (fun i => 25 + i * 65 / rows.length) ++ [95, 100] ∧
    List.Chain' (· ≤ ·) (mainRun env).progress ∧
    (∀ v ∈ (mainRun env).progress, v ≤ 100) ∧
    (∃ l, (mainRun env).progress = l ++ [100]) := by
  obtain ⟨_hres, hprog, _hcsv⟩ := mainRun_success_fields env rows hf he hc
  have hmid : (processRecords env.attemptEnvs env.now rows.length 0 rows).2 =
      (List.range rows.length).map (fun i => 25 + i * 65 / rows.length) := by
    rw [processRecords_progress]
    simp
  rw [hprog, hmid]
  set N := rows.length with hN
  set mid := (List.range N).map (fun i => 25 + i * 65 / N) with hmidd
  have hmem : ∀ v ∈ mid, 25 ≤ v ∧ v ≤ 89 := by
    intro v hv
    rw [hmidd] at hv
    obtain ⟨i, hi, rfl⟩ := List.mem_map.1 hv
    rw [List.mem_range] at hi
    have hNpos : 0 < N := Nat.lt_of_le_of_lt (Nat.zero_le i) hi
    have hdiv : i * 65 / N < 65 := by
      rw [Nat.div_lt_iff_lt_mul hNpos]
      have h2 : (i + 1) * 65 ≤ N * 65 := Nat.mul_le_mul_right 65 hi
      omega
    exact ⟨Nat.le_add_right 25 _, by omega⟩
  have hmono : List.Pairwise (· ≤ ·) mid := by
    rw [hmidd]
    refine List.Pairwise.map _ (fun a b hab => ?_) (List.pairwise_lt_range N)
    exact Nat.add_le_add_left
      (Nat.div_le_div_right (Nat.mul_le_mul_right 65 (Nat.le_of_lt hab))) 25
  have hpw : List.Pairwise (· ≤ ·) ([5, 10, 15, 25] ++ (mid ++ [95, 100])) := by
    rw [List.pairwise_append]
    refine ⟨by decide, ?_, ?_⟩
    · rw [List.pairwise_append]
      refine ⟨hmono, by decide, ?_⟩
      intro a ha b hb
      have h89 := (hmem a ha).2
      simp only [List.mem_cons, List.mem_singleton, List.not_mem_nil, or_false] at hb
      rcases hb with rfl | rfl <;> omega
    · intro a ha b hb
      simp only [List.mem_cons, List.not_mem_nil, or_false] at ha
      have ha25 : a ≤ 25 := by rcases ha with rfl | rfl | rfl | rfl <;> omega
      rcases List.mem_append.1 hb with hbm | hbB
      · have h25 := (hmem b hbm).1
        omega
      · simp only [List.mem_cons, List.mem_singleton, List.not_mem_nil, or_false] at hbB
        rcases hbB with rfl | rfl <;> omega
  refine ⟨rfl, hpw.chain', ?_, ?_⟩
  · intro v hv
    rcases List.mem_append.1 hv with hvA | hvB
    · rcases List.mem_append.1 hvA with hvH | hvm
      · simp only [List.mem_cons, List.not_mem_nil, or_false] at hvH
        rcases hvH with rfl | rfl | rfl | rfl <;> omega
      · have := (hmem v hvm).2
        omega
    · simp only [List.mem_cons, List.mem_singleton, List.not_mem_nil, or_false] at hvB
      rcases hvB with rfl | rfl <;> omega
  · exact ⟨[5, 10, 15, 25] ++ (mid ++ [95]), by simp⟩

/-- Witness for C8 on a concrete two-row run: the full progress sequence, in
particular ending at 100. -/
theorem c8_progress_invariants_w :
    (mainRun ⟨true,
      some [⟨"4500012345", 10, .str "15/03/2024"⟩, ⟨"4500099999", 20, .str "01/04/2024"⟩],
      true,
      fun _ _ => ⟨.nullBar, .nullBar, true, true, "10.03.2024", "15.03.2024", .nullBar⟩,
      false, "2024-03-15 08:00:00"⟩).progress =
      [5, 10, 15, 25] ++
        (List.range 2).map (fun i => 25 + i * 65 / 2) ++ [95, 100] :=
  (c8_progress_invariants
    ⟨true,
      some [⟨"4500012345", 10, .str "15/03/2024"⟩, ⟨"4500099999", 20, .str "01/04/2024"⟩],
      true,
      fun _ _ => ⟨.nullBar, .nullBar, true, true, "10.03.2024", "15.03.2024", .nullBar⟩,
      false, "2024-03-15 08:00:00"⟩
    [⟨"4500012345", 10, .str "15/03/2024"⟩, ⟨"4500099999", 20, .str "01/04/2024"⟩]
    rfl rfl rfl).1

/-! ### Claim C1 — the cancellation flag -/

/-- A run whose cancellation flag is set before the first record starts. -/
def cancelEnvC1 : MainEnv :=
  ⟨true, some [⟨"4500012345", 10, .str "15/03/2024"⟩], true,
    fun _ _ => ⟨.nullBar, .nullBar, true, true, "10.03.2024", "15.03.2024", .nullBar⟩,
    true, "2024-03-15 08:00:00"⟩

/-- Counterexample to claim C1: with the cooperative cancellation flag set
before record 0 starts, the per-record loop still issues the transaction for
record 0 — it runs to completion and commits, instead of being skipped. -/
theorem c1_cancel_flag_ignored_cex :
    cancelEnvC1.cancelSolicitado = true ∧
    (mainRun cancelEnvC1).resultados =
      [⟨"4500012345", 10, "15.03.2024", "SUCESSO",
        "✅ Pedido 4500012345, linha 10 atualizado para 15.03.2024",
        "2024-03-15 08:00:00"⟩] := by decide

/-- Claim C1 as amended: the flag `_cancelamento_solicitado` is declared but
never consulted — a run behaves identically whatever the flag's value, and on
a normal run a transaction is issued for every record even when the flag is
set. -/
theorem c1_cancel_flag_no_effect :
    (∀ (env : MainEnv) (b : Bool),
      mainRun { env with cancelSolicitado := b } = mainRun env) ∧
    (∀ (env : MainEnv) (rows : List RecordInput),
      env.fileExists = true → env.excelRows = some rows → env.connected = true →
      (mainRun env).resultados.length = rows.length) := by
  constructor
  · intro env b
    cases env
    rfl
  · intro env rows hf he hc
    rw [(mainRun_success_fields env rows hf he hc).1, processRecords_length]

/-- Witness for C1: setting or clearing the flag on the concrete run changes
nothing, and the run with the flag set still processes its single record. -/
theorem c1_cancel_flag_no_effect_w :
    mainRun { cancelEnvC1 with cancelSolicitado := false } = mainRun cancelEnvC1 ∧
    (mainRun cancelEnvC1).resultados.length = 1 :=
  ⟨c1_cancel_flag_no_effect.1 cancelEnvC1 false,
   c1_cancel_flag_no_effect.2 cancelEnvC1 [⟨"4500012345", 10, .str "15/03/2024"⟩]
     rfl rfl rfl⟩

end Sap
